import Mathlib

/-!
Shallow embedding of `src/server.js`: a chat server with public, private and
group messages over a socket event channel.

Modelling conventions:
* A JavaScript object with string keys (`users`, `groups`) is an association
  list in key-insertion order with pairwise distinct keys; `users[k] = v`
  is an in-place update or an append, `Object.entries` / `Object.keys` /
  `Object.values` walk the list in order, and `obj[k]` is first-match lookup.
* `io.emit(e, p)` is one emission per connected socket; `socket.emit` and
  `io.to(sid).emit` are a single emission to the named socket;
  `socket.broadcast.emit` is one emission per connected socket except the
  sender.  An emission is a pair (destination socket id, outbound event).
* `Date.now()` is passed in as an explicit `now` argument.
* Socket ids are opaque transport-generated identifiers and never the empty
  string, so `Object.entries(users).find(...)?.[0] || null` is modelled as an
  `Option`-valued first-match lookup.  Nicknames, by contrast, are arbitrary
  client-supplied strings, so every JS truthiness test on a nickname
  (`users[socket.id] || "Desconocido"`, `!senderNick`, `creatorNick && ...`)
  is modelled explicitly: the empty string is falsy.
* `saveHistory` only mirrors `chatHistory` to disk and never changes
  in-memory state; it is therefore not part of the state model.
-/

set_option autoImplicit false

namespace Chatto

/-- The `type` field of a stored message: the closed set of message kinds. -/
inductive MsgType
  | public
  | priv
  | group
  deriving DecidableEq, Repr

/-- A stored message record, as built by the three chat handlers. -/
structure Message where
  id : String
  name : String
  text : String
  image : Option String
  time : Nat
  type : MsgType
  target : Option String
  deriving DecidableEq, Repr

/-- Inbound chat payload fields (`msg.type`, `msg.text`, `msg.data`); absent
JSON fields are `none`. -/
structure InMsg where
  type : Option String
  text : Option String
  data : Option String
  deriving DecidableEq, Repr

/-- `chat public` accepts either a bare string or an object payload. -/
inductive PublicIn
  | str (text : String)
  | obj (m : InMsg)
  deriving DecidableEq, Repr

/-- Outbound events the server emits. -/
inductive OutEvent
  | chatMessage (m : Message)
  | systemMessage (text : String)
  | userList (nicks : List String)
  | groupList (names : List String)
  | historyList (msgs : List Message)
  | typingEvt (name : Option String) (ty : String) (target : Option String)
  deriving DecidableEq, Repr

/-- One delivery: (destination socket id, event). -/
abbrev Emission := String × OutEvent

/-- Server state: connected sockets, `users` (socketId → nickname),
`groups` (groupName → member nicknames), `chatHistory`. -/
structure ServerState where
  sockets : List String
  users : List (String × String)
  groups : List (String × List String)
  chatHistory : List Message
  deriving DecidableEq, Repr

/-- First-match lookup `obj[k]` on a JS object modelled as an assoc list. -/
def objGet {α : Type} (l : List (String × α)) (k : String) : Option α :=
  (l.find? (fun p => p.1 == k)).map Prod.snd

/-- `obj[k] = v` on a JS object: update in place if the key exists, else
append (string keys keep insertion order). -/
def upsert (l : List (String × String)) (k v : String) : List (String × String) :=
  match l with
  | [] => [(k, v)]
  | (k', v') :: t => if k' == k then (k, v) :: t else (k', v') :: upsert t k v

/-- JS truthiness of a possibly-absent string: `undefined` and `""` are falsy. -/
def jsTruthy : Option String → Bool
  | some v => !(v == "")
  | none => false

/-- `x || d` for a possibly-absent string `x`. -/
def jsOrDefault (o : Option String) (d : String) : String :=
  if jsTruthy o then o.getD d else d

/-- `nicknameToSocketId` from the source: first entry of `users` whose value
is `nickname`. -/
def nicknameToSocketId (users : List (String × String)) (nickname : String) :
    Option String :=
  (users.find? (fun p => p.2 == nickname)).map Prod.fst

/-- `filterHistoryForNickname` from the source: the messages `nickname` may
see, with group membership evaluated against the current registry. -/
def filterHistoryForNickname (groups : List (String × List String))
    (chatHistory : List Message) (nickname : String) : List Message :=
  chatHistory.filter (fun msg =>
    match msg.type with
    | MsgType.public => true
    | MsgType.priv => msg.name == nickname || msg.target == some nickname
    | MsgType.group =>
      match msg.target with
      | some gname => ((objGet groups gname).getD []).contains nickname
      | none => false)

/-- `Object.keys(groups).filter(g => (groups[g] || []).includes(nick))`. -/
def groupsContaining (groups : List (String × List String)) (nick : String) :
    List String :=
  (groups.filter (fun p => p.2.contains nick)).map Prod.fst

/-- `io.emit`: deliver one event to every connected socket. -/
def emitAll (s : ServerState) (e : OutEvent) : List Emission :=
  s.sockets.map (fun sid => (sid, e))

/-- Handler for `set nickname`. -/
def setNickname (s : ServerState) (sid nick : String) :
    ServerState × List Emission :=
  let users' := upsert s.users sid nick
  let s' := { s with users := users' }
  (s', emitAll s' (OutEvent.userList (users'.map Prod.snd))
    ++ [(sid, OutEvent.historyList
          (filterHistoryForNickname s'.groups s'.chatHistory nick))]
    ++ [(sid, OutEvent.groupList (groupsContaining s'.groups nick))])

/-- The record the `chat public` handler builds and stores. -/
def pubMessage (s : ServerState) (senderSid : String) (p : PublicIn)
    (now : Nat) : Message :=
  let isImage : Bool := match p with
    | PublicIn.obj m => m.type == some "image"
    | PublicIn.str _ => false
  { id := senderSid,
    name := jsOrDefault (objGet s.users senderSid) "Desconocido",
    text := if isImage then "" else
      (match p with
       | PublicIn.str t => t
       | PublicIn.obj m => m.text.getD ""),
    image := if isImage then
      (match p with
       | PublicIn.obj m => m.data
       | PublicIn.str _ => none) else none,
    time := now,
    type := MsgType.public,
    target := none }

/-- Handler for `chat public`. -/
def chatPublic (s : ServerState) (senderSid : String) (p : PublicIn)
    (now : Nat) : ServerState × List Emission :=
  let message := pubMessage s senderSid p now
  ({ s with chatHistory := s.chatHistory ++ [message] },
   emitAll s (OutEvent.chatMessage message))

/-- The record the `chat private` handler builds and stores. -/
def privMessage (s : ServerState) (senderSid target : String) (m : InMsg)
    (now : Nat) : Message :=
  let isImage : Bool := m.type == some "image"
  { id := senderSid,
    name := jsOrDefault (objGet s.users senderSid) "Desconocido",
    text := if isImage then "" else m.text.getD "",
    image := if isImage then m.data else none,
    time := now,
    type := MsgType.priv,
    target := some target }

/-- Handler for `chat private`. -/
def chatPrivate (s : ServerState) (senderSid target : String) (m : InMsg)
    (now : Nat) : ServerState × List Emission :=
  match nicknameToSocketId s.users target with
  | none =>
    (s, [(senderSid, OutEvent.systemMessage
      ("Usuario \"" ++ target ++ "\" no está conectado."))])
  | some targetId =>
    let message := privMessage s senderSid target m now
    ({ s with chatHistory := s.chatHistory ++ [message] },
     [(senderSid, OutEvent.chatMessage message),
      (targetId, OutEvent.chatMessage message)])

/-- The record the `chat group` handler builds and stores (`nick` is the
sender's truthy nickname). -/
def grpMessage (senderSid nick gname : String) (m : InMsg)
    (now : Nat) : Message :=
  let isImage : Bool := m.type == some "image"
  { id := senderSid,
    name := nick,
    text := if isImage then "" else m.text.getD "",
    image := if isImage then m.data else none,
    time := now,
    type := MsgType.group,
    target := some gname }

/-- Handler for `chat group`. -/
def chatGroup (s : ServerState) (senderSid gname : String) (m : InMsg)
    (now : Nat) : ServerState × List Emission :=
  if gname = "" ∨ (objGet s.groups gname).isNone then
    (s, [(senderSid, OutEvent.systemMessage
      ("El grupo \"" ++ gname ++ "\" no existe."))])
  else
    let members := (objGet s.groups gname).getD []
    let senderNick := objGet s.users senderSid
    if ¬ jsTruthy senderNick ∨ ¬ members.contains (senderNick.getD "") then
      (s, [(senderSid, OutEvent.systemMessage
        ("No tienes permiso para enviar mensajes a \"" ++ gname ++ "\"."))])
    else
      let message := grpMessage senderSid (senderNick.getD "") gname m now
      ({ s with chatHistory := s.chatHistory ++ [message] },
       members.filterMap (fun mn =>
         (nicknameToSocketId s.users mn).map
           (fun tsid => (tsid, OutEvent.chatMessage message))))

/-- Outcome of the `create group` handler's validation chain.  The source
reports these as `system message` texts: `invalidRequest` is
"Nombre de grupo inválido o sin miembros.", `duplicateGroup` is
"El grupo ... ya existe.", `noValidMembers` is
"Ninguno de los miembros está conectado.". -/
inductive CreateResult
  | invalidRequest
  | duplicateGroup
  | noValidMembers
  | success (validMembers : List String)
  deriving DecidableEq, Repr

/-- The validation/filtering chain of the `create group` handler, mirroring
the source's control flow: reject empty name or empty member list; reject an
existing name; filter members against connected nicknames; force-add a truthy
creator nickname; reject an empty result. -/
def createGroupResult (users : List (String × String))
    (groups : List (String × List String)) (sid gname : String)
    (members : List String) : CreateResult :=
  if gname = "" ∨ members = [] then CreateResult.invalidRequest
  else if (objGet groups gname).isSome then CreateResult.duplicateGroup
  else
    let connectedNicknames := users.map Prod.snd
    let validMembers := members.filter (fun n => connectedNicknames.contains n)
    let creatorNick := objGet users sid
    let vm :=
      if jsTruthy creatorNick ∧ ¬ validMembers.contains (creatorNick.getD "")
      then validMembers ++ [creatorNick.getD ""]
      else validMembers
    if vm = [] then CreateResult.noValidMembers else CreateResult.success vm

/-- Handler for `create group`. -/
def createGroup (s : ServerState) (sid gname : String)
    (members : List String) : ServerState × List Emission :=
  match createGroupResult s.users s.groups sid gname members with
  | CreateResult.invalidRequest =>
    (s, [(sid, OutEvent.systemMessage "Nombre de grupo inválido o sin miembros.")])
  | CreateResult.duplicateGroup =>
    (s, [(sid, OutEvent.systemMessage ("El grupo \"" ++ gname ++ "\" ya existe."))])
  | CreateResult.noValidMembers =>
    (s, [(sid, OutEvent.systemMessage "Ninguno de los miembros está conectado.")])
  | CreateResult.success vm =>
    let groups' := s.groups ++ [(gname, vm)]
    ({ s with groups := groups' },
     vm.filterMap (fun nick =>
       (nicknameToSocketId s.users nick).map
         (fun tsid => (tsid, OutEvent.groupList (groupsContaining groups' nick))))
     ++ [(sid, OutEvent.systemMessage
           ("Grupo \"" ++ gname ++ "\" creado con " ++ toString vm.length
             ++ " miembro(s)."))])

/-- Handler for `typing`. -/
def typingHandler (s : ServerState) (senderSid : String) (ty : String)
    (target : Option String) : ServerState × List Emission :=
  let senderNick := objGet s.users senderSid
  if ty = "public" then
    (s, (s.sockets.filter (fun x => x ≠ senderSid)).map
      (fun x => (x, OutEvent.typingEvt senderNick ty none)))
  else if ty = "private" ∧ jsTruthy target then
    match nicknameToSocketId s.users (target.getD "") with
    | some tid => (s, [(tid, OutEvent.typingEvt senderNick ty target)])
    | none => (s, [])
  else if ty = "group" ∧ jsTruthy target then
    match objGet s.groups (target.getD "") with
    | none => (s, [])
    | some mems =>
      (s, mems.filterMap (fun mn =>
        match nicknameToSocketId s.users mn with
        | some tsid =>
          if tsid ≠ senderSid
          then some (tsid, OutEvent.typingEvt senderNick ty target)
          else none
        | none => none))
  else (s, [])

/-- Handler for the administrative `POST /reset` endpoint. -/
def resetHandler (s : ServerState) : ServerState × List Emission :=
  let s' := { s with chatHistory := ([] : List Message),
                     groups := ([] : List (String × List String)) }
  (s', emitAll s' (OutEvent.userList (s'.users.map Prod.snd))
    ++ s'.users.flatMap (fun p =>
        [(p.1, OutEvent.groupList []),
         (p.1, OutEvent.historyList
            (filterHistoryForNickname s'.groups s'.chatHistory p.2))]))

/-- Handler for `disconnect`. -/
def disconnectHandler (s : ServerState) (sid : String) :
    ServerState × List Emission :=
  let users' := s.users.filter (fun p => p.1 ≠ sid)
  let sockets' := s.sockets.filter (fun x => x ≠ sid)
  let s' := { s with users := users', sockets := sockets' }
  (s', emitAll s' (OutEvent.userList (users'.map Prod.snd))
    ++ users'.map (fun p =>
        (p.1, OutEvent.groupList (groupsContaining s'.groups p.2))))

/-- Inbound events the server reacts to. -/
inductive InEvent
  | connect (sid : String)
  | setNick (sid nick : String)
  | pubMsg (sid : String) (p : PublicIn) (now : Nat)
  | privMsg (sid target : String) (m : InMsg) (now : Nat)
  | grpMsg (sid gname : String) (m : InMsg) (now : Nat)
  | createGrp (sid gname : String) (members : List String)
  | typing (sid : String) (ty : String) (target : Option String)
  | disconnect (sid : String)
  | reset
  deriving DecidableEq, Repr

/-- One atomic event-handling step: the new state and the emissions. -/
def step (s : ServerState) (e : InEvent) : ServerState × List Emission :=
  match e with
  | InEvent.connect sid => ({ s with sockets := s.sockets ++ [sid] }, [])
  | InEvent.setNick sid n => setNickname s sid n
  | InEvent.pubMsg sid p now => chatPublic s sid p now
  | InEvent.privMsg sid t m now => chatPrivate s sid t m now
  | InEvent.grpMsg sid g m now => chatGroup s sid g m now
  | InEvent.createGrp sid g mem => createGroup s sid g mem
  | InEvent.typing sid ty tgt => typingHandler s sid ty tgt
  | InEvent.disconnect sid => disconnectHandler s sid
  | InEvent.reset => resetHandler s

/-- The fresh-start state of the server (no connections, empty history). -/
def initState : ServerState :=
  { sockets := [], users := [], groups := [], chatHistory := [] }

/-- Run a sequence of events from a given state, keeping only the state. -/
def runFrom (s : ServerState) (evs : List InEvent) : ServerState :=
  evs.foldl (fun s e => (step s e).1) s

/-- The state reached from a fresh start by a sequence of events. -/
def run (evs : List InEvent) : ServerState :=
  runFrom initState evs

/-- Keys of an assoc list are pairwise distinct (the JS-object invariant). -/
abbrev keysNodup {α : Type} (l : List (String × α)) : Prop :=
  (l.map Prod.fst).Nodup

/-- Values are pairwise distinct: no two connections share a nickname.  The
spec declares reverse lookup under duplicate nicknames undefined behaviour,
so delivery-set claims are read under this assumption. -/
abbrev valsNodup (l : List (String × String)) : Prop :=
  (l.map Prod.snd).Nodup

/-- A socket receives the routed chat message in an emission list. -/
def receivesChat (ems : List Emission) (sid : String) : Prop :=
  ∃ m : Message, (sid, OutEvent.chatMessage m) ∈ ems

/-- A socket receives a typing indicator in an emission list. -/
def receivesTyping (ems : List Emission) (sid : String) : Prop :=
  ∃ n ty tg, (sid, OutEvent.typingEvt n ty tg) ∈ ems

/-- Boolean test: is this outbound event a `chat message`? -/
def isChatMessageEvt : OutEvent → Bool
  | OutEvent.chatMessage _ => true
  | _ => false

/-- Boolean test: is this outbound event a `group list`? -/
def isGroupListEvt : OutEvent → Bool
  | OutEvent.groupList _ => true
  | _ => false

/-- Well-formedness of a stored message: its kind is in the closed set and
`target` is non-null exactly for private and group kinds. -/
def msgWF (msg : Message) : Prop :=
  (msg.type = MsgType.public ∨ msg.type = MsgType.priv
    ∨ msg.type = MsgType.group) ∧
  (msg.target ≠ none ↔ (msg.type = MsgType.priv ∨ msg.type = MsgType.group))

/-- Every message in the history store is well-formed. -/
def historyWF (s : ServerState) : Prop :=
  ∀ msg ∈ s.chatHistory, msgWF msg

/-- Post-condition of an accepted private message A → B: appended to the
store, delivered to exactly the connections of A and B, visible in the
filtered history of A and B and of nobody else. -/
def c1Post (s : ServerState) (senderSid A B : String) (m : InMsg)
    (now : Nat) : Prop :=
  (chatPrivate s senderSid B m now).1.chatHistory
    = s.chatHistory ++ [privMessage s senderSid B m now] ∧
  (∀ sid, receivesChat (chatPrivate s senderSid B m now).2 sid ↔
    (objGet s.users sid = some A ∨ objGet s.users sid = some B)) ∧
  privMessage s senderSid B m now ∈
    filterHistoryForNickname (chatPrivate s senderSid B m now).1.groups
      (chatPrivate s senderSid B m now).1.chatHistory A ∧
  privMessage s senderSid B m now ∈
    filterHistoryForNickname (chatPrivate s senderSid B m now).1.groups
      (chatPrivate s senderSid B m now).1.chatHistory B ∧
  ∀ C, C ≠ A → C ≠ B → privMessage s senderSid B m now ∉
    filterHistoryForNickname (chatPrivate s senderSid B m now).1.groups
      (chatPrivate s senderSid B m now).1.chatHistory C

/-- Post-condition of the group-message handler for an existing group with
member list M: a sender with a non-empty nickname in M gets the message
appended and delivered to exactly the live connections of M's nicknames; a
sender whose nickname is not in M (or who has none) is rejected with the
permission notice and nothing is stored. -/
def c2Post (s : ServerState) (senderSid gname : String) (M : List String)
    (m : InMsg) (now : Nat) : Prop :=
  (∀ nick, objGet s.users senderSid = some nick → nick ≠ "" → nick ∈ M →
    ((chatGroup s senderSid gname m now).1.chatHistory
        = s.chatHistory ++ [grpMessage senderSid nick gname m now] ∧
     ∀ sid, receivesChat (chatGroup s senderSid gname m now).2 sid ↔
       ∃ mem ∈ M, objGet s.users sid = some mem)) ∧
  (∀ nick, objGet s.users senderSid = some nick → nick ∉ M →
    chatGroup s senderSid gname m now =
      (s, [(senderSid, OutEvent.systemMessage
        ("No tienes permiso para enviar mensajes a \"" ++ gname ++ "\"."))])) ∧
  (objGet s.users senderSid = none →
    chatGroup s senderSid gname m now =
      (s, [(senderSid, OutEvent.systemMessage
        ("No tienes permiso para enviar mensajes a \"" ++ gname ++ "\"."))]))

/-- Post-condition of the administrative reset: history and registry
cleared, sessions untouched, the presence list broadcast to every socket,
and an empty group list and an empty filtered history sent to every socket
that has an entry in the session directory. -/
def c5Post (s : ServerState) : Prop :=
  (resetHandler s).1.chatHistory = [] ∧
  (resetHandler s).1.groups = [] ∧
  (resetHandler s).1.users = s.users ∧
  (resetHandler s).1.sockets = s.sockets ∧
  (∀ sid ∈ s.sockets,
    (sid, OutEvent.userList (s.users.map Prod.snd)) ∈ (resetHandler s).2) ∧
  (∀ p ∈ s.users,
    (p.1, OutEvent.groupList []) ∈ (resetHandler s).2 ∧
    (p.1, OutEvent.historyList []) ∈ (resetHandler s).2)

/-- Post-condition of a group typing event for an existing group with member
list M: delivered to exactly the live member connections other than the
sender's own socket, with no membership requirement on the sender. -/
def c10Post (s : ServerState) (senderSid gname : String)
    (M : List String) : Prop :=
  ∀ sid, receivesTyping (typingHandler s senderSid "group" (some gname)).2 sid
    ↔ (sid ≠ senderSid ∧ ∃ mem ∈ M, objGet s.users sid = some mem)

/-! Helper lemmas about the assoc-list lookups. -/

lemma objGet_mem {α : Type} {l : List (String × α)} {k : String} {v : α}
    (h : objGet l k = some v) : (k, v) ∈ l := by
  unfold objGet at h
  cases hf : l.find? (fun p => p.1 == k) with
  | none => rw [hf] at h; cases h
  | some p =>
    rw [hf] at h
    have h1 := List.find?_some hf
    have h2 : p ∈ l := List.mem_of_find?_eq_some hf
    have hp : p = (k, v) := by
      cases p
      simp_all
    rw [hp] at h2
    exact h2

lemma mem_objGet {α : Type} {k : String} {v : α} :
    ∀ {l : List (String × α)}, keysNodup l → (k, v) ∈ l →
      objGet l k = some v := by
  intro l
  induction l with
  | nil => intro _ h; cases h
  | cons p t ih =>
    intro hk h
    have hk' := List.nodup_cons.mp
      (show (p.1 :: t.map Prod.fst).Nodup from hk)
    rcases List.mem_cons.mp h with h1 | h2
    · rw [← h1]
      unfold objGet
      rw [List.find?_cons_of_pos _ (by simp)]
      rfl
    · by_cases hkk : p.1 = k
      · exact absurd (hkk ▸ List.mem_map.mpr ⟨(k, v), h2, rfl⟩) hk'.1
      · unfold objGet
        rw [List.find?_cons_of_neg _ (by simp [hkk])]
        exact ih hk'.2 h2

lemma nicknameToSocketId_mem {u : List (String × String)} {n sid : String}
    (h : nicknameToSocketId u n = some sid) : (sid, n) ∈ u := by
  unfold nicknameToSocketId at h
  cases hf : u.find? (fun p => p.2 == n) with
  | none => rw [hf] at h; cases h
  | some p =>
    rw [hf] at h
    have h1 := List.find?_some hf
    have h2 : p ∈ u := List.mem_of_find?_eq_some hf
    have hp : p = (sid, n) := by
      cases p
      simp_all
    rw [hp] at h2
    exact h2

lemma mem_nicknameToSocketId {n sid : String} :
    ∀ {u : List (String × String)}, valsNodup u → (sid, n) ∈ u →
      nicknameToSocketId u n = some sid := by
  intro u
  induction u with
  | nil => intro _ h; cases h
  | cons p t ih =>
    intro hv h
    have hv' := List.nodup_cons.mp
      (show (p.2 :: t.map Prod.snd).Nodup from hv)
    rcases List.mem_cons.mp h with h1 | h2
    · rw [← h1]
      unfold nicknameToSocketId
      rw [List.find?_cons_of_pos _ (by simp)]
      rfl
    · by_cases hnn : p.2 = n
      · exact absurd (hnn ▸ List.mem_map.mpr ⟨(sid, n), h2, rfl⟩) hv'.1
      · unfold nicknameToSocketId
        rw [List.find?_cons_of_neg _ (by simp [hnn])]
        exact ih hv'.2 h2

lemma vals_inj {u : List (String × String)} (hv : valsNodup u)
    {k1 k2 n : String} (h1 : (k1, n) ∈ u) (h2 : (k2, n) ∈ u) : k1 = k2 := by
  have e1 := mem_nicknameToSocketId hv h1
  have e2 := mem_nicknameToSocketId hv h2
  rw [e1] at e2
  exact Option.some.inj e2

lemma jsOrDefault_of_ne {v d : String} (h : v ≠ "") :
    jsOrDefault (some v) d = v := by
  simp [jsOrDefault, jsTruthy, h]

lemma objGet_eq_none_not_mem {α : Type} {l : List (String × α)} {k : String}
    (h : objGet l k = none) {v : α} (hm : (k, v) ∈ l) : False := by
  unfold objGet at h
  cases hf : l.find? (fun p => p.1 == k) with
  | some p => rw [hf] at h; cases h
  | none =>
    have := List.find?_eq_none.mp hf (k, v) hm
    simp at this

/-! Equation lemmas for the handlers, one per validation outcome. -/

lemma chatPrivate_none (s : ServerState) (senderSid target : String)
    (m : InMsg) (now : Nat) (h : nicknameToSocketId s.users target = none) :
    chatPrivate s senderSid target m now =
      (s, [(senderSid, OutEvent.systemMessage
        ("Usuario \"" ++ target ++ "\" no está conectado."))]) := by
  unfold chatPrivate
  rw [h]

lemma chatPrivate_some (s : ServerState) (senderSid target targetId : String)
    (m : InMsg) (now : Nat)
    (h : nicknameToSocketId s.users target = some targetId) :
    chatPrivate s senderSid target m now =
      ({ s with chatHistory :=
           s.chatHistory ++ [privMessage s senderSid target m now] },
       [(senderSid, OutEvent.chatMessage (privMessage s senderSid target m now)),
        (targetId, OutEvent.chatMessage (privMessage s senderSid target m now))]) := by
  unfold chatPrivate
  rw [h]

lemma chatGroup_accepted (s : ServerState) (senderSid gname nick : String)
    (M : List String) (m : InMsg) (now : Nat)
    (hne : gname ≠ "") (hg : objGet s.groups gname = some M)
    (hnick : objGet s.users senderSid = some nick) (hnickne : nick ≠ "")
    (hmem : nick ∈ M) :
    chatGroup s senderSid gname m now =
      ({ s with chatHistory :=
           s.chatHistory ++ [grpMessage senderSid nick gname m now] },
       M.filterMap (fun mn =>
         (nicknameToSocketId s.users mn).map
           (fun tsid => (tsid, OutEvent.chatMessage
             (grpMessage senderSid nick gname m now))))) := by
  unfold chatGroup
  rw [hg, hnick]
  simp [hne, hnickne, jsTruthy, List.contains, List.elem_iff, hmem]

lemma chatGroup_not_member (s : ServerState) (senderSid gname nick : String)
    (M : List String) (m : InMsg) (now : Nat)
    (hne : gname ≠ "") (hg : objGet s.groups gname = some M)
    (hnick : objGet s.users senderSid = some nick) (hmem : nick ∉ M) :
    chatGroup s senderSid gname m now =
      (s, [(senderSid, OutEvent.systemMessage
        ("No tienes permiso para enviar mensajes a \"" ++ gname ++ "\"."))]) := by
  unfold chatGroup
  rw [hg, hnick]
  simp [hne, jsTruthy, List.contains, List.elem_iff, hmem]

lemma chatGroup_no_nick (s : ServerState) (senderSid gname : String)
    (M : List String) (m : InMsg) (now : Nat)
    (hne : gname ≠ "") (hg : objGet s.groups gname = some M)
    (hnick : objGet s.users senderSid = none) :
    chatGroup s senderSid gname m now =
      (s, [(senderSid, OutEvent.systemMessage
        ("No tienes permiso para enviar mensajes a \"" ++ gname ++ "\"."))]) := by
  unfold chatGroup
  rw [hg, hnick]
  simp [hne, jsTruthy]

lemma chatGroup_groups (s : ServerState) (sid g : String) (m : InMsg)
    (now : Nat) : (chatGroup s sid g m now).1.groups = s.groups := by
  unfold chatGroup
  split
  · rfl
  · dsimp only
    split
    · rfl
    · rfl

lemma chatGroup_hist (s : ServerState) (sid g : String) (m : InMsg)
    (now : Nat) :
    (chatGroup s sid g m now).1.chatHistory = s.chatHistory ∨
    ∃ nick, (chatGroup s sid g m now).1.chatHistory
      = s.chatHistory ++ [grpMessage sid nick g m now] := by
  unfold chatGroup
  split
  · exact Or.inl rfl
  · dsimp only
    split
    · exact Or.inl rfl
    · exact Or.inr ⟨_, rfl⟩

lemma typingHandler_fst (s : ServerState) (sid ty : String)
    (tgt : Option String) : (typingHandler s sid ty tgt).1 = s := by
  unfold typingHandler
  repeat' split
  all_goals rfl

lemma createGroup_hist (s : ServerState) (sid g : String)
    (mem : List String) :
    (createGroup s sid g mem).1.chatHistory = s.chatHistory := by
  unfold createGroup
  cases createGroupResult s.users s.groups sid g mem <;> rfl

lemma createGroup_success_eq (s : ServerState) (sid gname : String)
    (members vm : List String)
    (h : createGroupResult s.users s.groups sid gname members
      = CreateResult.success vm) :
    createGroup s sid gname members =
      ({ s with groups := s.groups ++ [(gname, vm)] },
       vm.filterMap (fun nick =>
         (nicknameToSocketId s.users nick).map
           (fun tsid => (tsid, OutEvent.groupList
             (groupsContaining (s.groups ++ [(gname, vm)]) nick))))
       ++ [(sid, OutEvent.systemMessage
             ("Grupo \"" ++ gname ++ "\" creado con " ++ toString vm.length
               ++ " miembro(s)."))]) := by
  unfold createGroup
  rw [h]

lemma createGroupResult_invalid_iff (users : List (String × String))
    (groups : List (String × List String)) (sid gname : String)
    (members : List String) :
    createGroupResult users groups sid gname members
      = CreateResult.invalidRequest ↔ (gname = "" ∨ members = []) := by
  unfold createGroupResult
  constructor
  · intro h
    by_cases hc : gname = "" ∨ members = []
    · exact hc
    · exfalso
      rw [if_neg hc] at h
      split at h
      · cases h
      · dsimp only at h
        repeat' split at h
        all_goals cases h
  · intro h
    rw [if_pos h]

lemma createGroupResult_eq (users : List (String × String))
    (groups : List (String × List String)) (sid gname : String)
    (members : List String)
    (hne : gname ≠ "") (hmem : members ≠ [])
    (hdup : objGet groups gname = none) :
    createGroupResult users groups sid gname members =
      (let validMembers :=
         members.filter (fun n => (users.map Prod.snd).contains n)
       let creatorNick := objGet users sid
       let vm :=
         if jsTruthy creatorNick ∧ ¬ validMembers.contains (creatorNick.getD "")
         then validMembers ++ [creatorNick.getD ""]
         else validMembers
       if vm = [] then CreateResult.noValidMembers
       else CreateResult.success vm) := by
  unfold createGroupResult
  rw [if_neg (by simp [hne, hmem]), hdup]
  rfl

lemma createGroupResult_noValid (users : List (String × String))
    (groups : List (String × List String)) (sid gname : String)
    (members : List String)
    (hne : gname ≠ "") (hmem : members ≠ [])
    (hdup : objGet groups gname = none)
    (hfil : members.filter (fun n => (users.map Prod.snd).contains n) = [])
    (hcreator : jsTruthy (objGet users sid) = false) :
    createGroupResult users groups sid gname members
      = CreateResult.noValidMembers := by
  rw [createGroupResult_eq users groups sid gname members hne hmem hdup]
  dsimp only
  rw [hcreator, hfil]
  simp

lemma createGroupResult_success_no_creator (users : List (String × String))
    (groups : List (String × List String)) (sid gname : String)
    (members : List String)
    (hne : gname ≠ "") (hdup : objGet groups gname = none)
    (hnone : objGet users sid = none)
    (hfil : members.filter (fun n => (users.map Prod.snd).contains n) ≠ []) :
    createGroupResult users groups sid gname members =
      CreateResult.success
        (members.filter (fun n => (users.map Prod.snd).contains n)) := by
  have hmem : members ≠ [] := by
    intro h
    apply hfil
    rw [h]
    rfl
  rw [createGroupResult_eq users groups sid gname members hne hmem hdup]
  dsimp only
  rw [hnone]
  simp only [jsTruthy, Bool.false_eq_true, false_and, if_false]
  rw [if_neg hfil]

lemma createGroupResult_success_gname {users : List (String × String)}
    {groups : List (String × List String)} {sid gname : String}
    {members vm : List String}
    (h : createGroupResult users groups sid gname members
      = CreateResult.success vm) : gname ≠ "" := by
  intro he
  unfold createGroupResult at h
  rw [if_pos (Or.inl he)] at h
  cases h

lemma msgWF_pubMessage (s : ServerState) (sid : String) (p : PublicIn)
    (now : Nat) : msgWF (pubMessage s sid p now) := by
  constructor
  · exact Or.inl rfl
  · simp [pubMessage]

lemma msgWF_privMessage (s : ServerState) (sid t : String) (m : InMsg)
    (now : Nat) : msgWF (privMessage s sid t m now) := by
  constructor
  · exact Or.inr (Or.inl rfl)
  · simp [privMessage]

lemma msgWF_grpMessage (sid nick g : String) (m : InMsg)
    (now : Nat) : msgWF (grpMessage sid nick g m now) := by
  constructor
  · exact Or.inr (Or.inr rfl)
  · simp [grpMessage]

lemma historyWF_append {l : List Message} {msg : Message}
    (hl : ∀ x ∈ l, msgWF x) (hm : msgWF msg) :
    ∀ x ∈ l ++ [msg], msgWF x := by
  intro x hx
  rcases List.mem_append.mp hx with h | h
  · exact hl x h
  · rw [List.mem_singleton.mp h]
    exact hm

lemma step_historyWF (s : ServerState) (e : InEvent) (hs : historyWF s) :
    historyWF (step s e).1 := by
  cases e with
  | connect sid => exact hs
  | setNick sid n => exact hs
  | pubMsg sid p now => exact historyWF_append hs (msgWF_pubMessage s sid p now)
  | privMsg sid t m now =>
    show historyWF (chatPrivate s sid t m now).1
    cases hr : nicknameToSocketId s.users t with
    | none =>
      rw [chatPrivate_none s sid t m now hr]
      exact hs
    | some tid =>
      rw [chatPrivate_some s sid t tid m now hr]
      exact historyWF_append hs (msgWF_privMessage s sid t m now)
  | grpMsg sid g m now =>
    show historyWF (chatGroup s sid g m now).1
    rcases chatGroup_hist s sid g m now with h | ⟨nick, h⟩
    · intro x hx
      rw [h] at hx
      exact hs x hx
    · intro x hx
      rw [h] at hx
      exact historyWF_append hs (msgWF_grpMessage sid nick g m now) x hx
  | createGrp sid g mem =>
    show historyWF (createGroup s sid g mem).1
    intro x hx
    rw [createGroup_hist s sid g mem] at hx
    exact hs x hx
  | typing sid ty tgt =>
    show historyWF (typingHandler s sid ty tgt).1
    rw [typingHandler_fst s sid ty tgt]
    exact hs
  | disconnect sid => exact hs
  | reset =>
    intro x hx
    rw [show (step s InEvent.reset).1.chatHistory = [] from rfl] at hx
    cases hx

lemma runFrom_historyWF (evs : List InEvent) :
    ∀ s : ServerState, historyWF s → historyWF (runFrom s evs) := by
  induction evs with
  | nil => intro s hs; exact hs
  | cons e t ih =>
    intro s hs
    exact ih (step s e).1 (step_historyWF s e hs)

lemma step_groups_keys (s : ServerState) (e : InEvent)
    (hs : "" ∉ s.groups.map Prod.fst) :
    "" ∉ (step s e).1.groups.map Prod.fst := by
  cases e with
  | connect sid => exact hs
  | setNick sid n => exact hs
  | pubMsg sid p now => exact hs
  | privMsg sid t m now =>
    show "" ∉ (chatPrivate s sid t m now).1.groups.map Prod.fst
    cases hr : nicknameToSocketId s.users t with
    | none =>
      rw [chatPrivate_none s sid t m now hr]
      exact hs
    | some tid =>
      rw [chatPrivate_some s sid t tid m now hr]
      exact hs
  | grpMsg sid g m now =>
    show "" ∉ (chatGroup s sid g m now).1.groups.map Prod.fst
    rw [chatGroup_groups s sid g m now]
    exact hs
  | createGrp sid g mem =>
    show "" ∉ (createGroup s sid g mem).1.groups.map Prod.fst
    unfold createGroup
    cases hr : createGroupResult s.users s.groups sid g mem with
    | invalidRequest => exact hs
    | duplicateGroup => exact hs
    | noValidMembers => exact hs
    | success vm =>
      intro hmem
      rw [show ((({ s with groups := s.groups ++ [(g, vm)] },
            vm.filterMap (fun nick =>
              (nicknameToSocketId s.users nick).map
                (fun tsid => (tsid, OutEvent.groupList
                  (groupsContaining (s.groups ++ [(g, vm)]) nick))))
            ++ [(sid, OutEvent.systemMessage
                  ("Grupo \"" ++ g ++ "\" creado con " ++ toString vm.length
                    ++ " miembro(s)."))]) : ServerState × List Emission)).1.groups
          = s.groups ++ [(g, vm)] from rfl] at hmem
      rw [List.map_append] at hmem
      rcases List.mem_append.mp hmem with h | h
      · exact hs h
      · have hg : ("" : String) = g := by simpa using h
        exact createGroupResult_success_gname hr hg.symm
  | typing sid ty tgt =>
    show "" ∉ (typingHandler s sid ty tgt).1.groups.map Prod.fst
    rw [typingHandler_fst s sid ty tgt]
    exact hs
  | disconnect sid => exact hs
  | reset =>
    intro hx
    rw [show (step s InEvent.reset).1.groups = [] from rfl] at hx
    cases hx

lemma runFrom_groups_keys (evs : List InEvent) :
    ∀ s : ServerState, "" ∉ s.groups.map Prod.fst →
      "" ∉ (runFrom s evs).groups.map Prod.fst := by
  induction evs with
  | nil => intro s hs; exact hs
  | cons e t ih =>
    intro s hs
    exact ih (step s e).1 (step_groups_keys s e hs)

lemma mem_filterHistory_priv {groups : List (String × List String)}
    {l : List Message} {msg : Message} {nickname : String}
    (ht : msg.type = MsgType.priv) :
    msg ∈ filterHistoryForNickname groups l nickname ↔
      msg ∈ l ∧ (msg.name = nickname ∨ msg.target = some nickname) := by
  unfold filterHistoryForNickname
  simp only [List.mem_filter]
  constructor
  · rintro ⟨h1, h2⟩
    refine ⟨h1, ?_⟩
    rw [ht] at h2
    simpa using h2
  · rintro ⟨h1, h2⟩
    refine ⟨h1, ?_⟩
    rw [ht]
    simpa using h2

lemma typingHandler_group_eq (s : ServerState) (senderSid gname : String)
    (M : List String) (hne : gname ≠ "")
    (hg : objGet s.groups gname = some M) :
    typingHandler s senderSid "group" (some gname) =
      (s, M.filterMap (fun mn =>
        match nicknameToSocketId s.users mn with
        | some tsid =>
          if tsid ≠ senderSid
          then some (tsid, OutEvent.typingEvt (objGet s.users senderSid)
            "group" (some gname))
          else none
        | none => none)) := by
  unfold typingHandler
  dsimp only
  rw [if_neg (by decide), if_neg (fun h => absurd h.1 (by decide)),
    if_pos ⟨rfl, by simp [jsTruthy, hne]⟩]
  rw [show ((some gname).getD "") = gname from rfl, hg]

/-! Claim theorems. -/

/-- Claim C1, amended: for nicknames A and B with A non-empty (and nicknames
pairwise distinct, as the spec fixes reverse lookup only without duplicates),
a private message from A's connection to B that is accepted is appended to
the store, exactly the connections of A and B receive the `chat message`
emission, and the stored message appears in the filtered history of A and of
B but of no other nickname.  The non-emptiness of A is forced by the
counterexample `c1_cex`: the handler stores `users[socket.id] || "Desconocido"`
as the sender name, so an empty-string nickname is recorded as
"Desconocido". -/
theorem c1_private_message_visibility (s : ServerState)
    (senderSid A B targetSid : String) (m : InMsg) (now : Nat)
    (hk : keysNodup s.users) (hv : valsNodup s.users)
    (hA : objGet s.users senderSid = some A) (hAne : A ≠ "")
    (hB : nicknameToSocketId s.users B = some targetSid) :
    c1Post s senderSid A B m now := by
  have heq := chatPrivate_some s senderSid B targetSid m now hB
  have hBmem : objGet s.users targetSid = some B :=
    mem_objGet hk (nicknameToSocketId_mem hB)
  have hname : (privMessage s senderSid B m now).name = A := by
    show jsOrDefault (objGet s.users senderSid) "Desconocido" = A
    rw [hA]
    exact jsOrDefault_of_ne hAne
  have htype : (privMessage s senderSid B m now).type = MsgType.priv := rfl
  have htarget : (privMessage s senderSid B m now).target = some B := rfl
  unfold c1Post
  rw [heq]
  dsimp only
  refine ⟨rfl, ?_, ?_, ?_, ?_⟩
  · intro sid
    constructor
    · rintro ⟨mm, hmem⟩
      simp only [List.mem_cons, List.not_mem_nil, or_false,
        Prod.mk.injEq] at hmem
      rcases hmem with ⟨h1, _⟩ | ⟨h1, _⟩
      · left
        rw [h1]
        exact hA
      · right
        rw [h1]
        exact hBmem
    · rintro (h | h)
      · have hsid : sid = senderSid := vals_inj hv (objGet_mem h) (objGet_mem hA)
        exact ⟨privMessage s senderSid B m now,
          by rw [hsid]; exact List.mem_cons_self _ _⟩
      · have hsid : sid = targetSid := vals_inj hv (objGet_mem h) (objGet_mem hBmem)
        exact ⟨privMessage s senderSid B m now,
          by rw [hsid]; exact List.mem_cons_of_mem _ (List.mem_cons_self _ _)⟩
  · exact (mem_filterHistory_priv htype).mpr
      ⟨List.mem_append_right _ (List.mem_singleton_self _), Or.inl hname⟩
  · exact (mem_filterHistory_priv htype).mpr
      ⟨List.mem_append_right _ (List.mem_singleton_self _), Or.inr htarget⟩
  · intro C hCA hCB hmem
    rcases ((mem_filterHistory_priv htype).mp hmem).2 with h | h
    · rw [hname] at h
      exact hCA h.symm
    · rw [htarget] at h
      exact hCB (Option.some.inj h).symm

/-- Witness for `c1_private_message_visibility` at a concrete two-user
state. -/
theorem c1_private_message_visibility_witness :
    c1Post ⟨["s1", "s2"], [("s1", "a"), ("s2", "b")], [], []⟩ "s1" "a" "b"
      ⟨none, some "hola", none⟩ 5 :=
  c1_private_message_visibility
    ⟨["s1", "s2"], [("s1", "a"), ("s2", "b")], [], []⟩ "s1" "a" "b" "s2"
    ⟨none, some "hola", none⟩ 5
    (by decide) (by decide) (by decide) (by decide) (by decide)

/-- Claim C1 as frozen is false at A = "": with users s1 ↦ "" and s2 ↦ "b",
the private send from s1 to "b" is accepted (stored, and two `chat message`
emissions go out), yet the stored message is NOT in `filterHistoryFor("")`
— the sender's own filtered history is empty — and it IS in
`filterHistoryFor("Desconocido")` although "Desconocido" is neither sender
nor target nickname. -/
theorem c1_cex :
    (chatPrivate ⟨["s1", "s2"], [("s1", ""), ("s2", "b")], [], []⟩ "s1" "b"
        ⟨none, some "hola", none⟩ 0).1.chatHistory.length = 1 ∧
    ((chatPrivate ⟨["s1", "s2"], [("s1", ""), ("s2", "b")], [], []⟩ "s1" "b"
        ⟨none, some "hola", none⟩ 0).2.filter
      (fun p => isChatMessageEvt p.2)).length = 2 ∧
    filterHistoryForNickname
      (chatPrivate ⟨["s1", "s2"], [("s1", ""), ("s2", "b")], [], []⟩ "s1" "b"
        ⟨none, some "hola", none⟩ 0).1.groups
      (chatPrivate ⟨["s1", "s2"], [("s1", ""), ("s2", "b")], [], []⟩ "s1" "b"
        ⟨none, some "hola", none⟩ 0).1.chatHistory "" = [] ∧
    (filterHistoryForNickname
      (chatPrivate ⟨["s1", "s2"], [("s1", ""), ("s2", "b")], [], []⟩ "s1" "b"
        ⟨none, some "hola", none⟩ 0).1.groups
      (chatPrivate ⟨["s1", "s2"], [("s1", ""), ("s2", "b")], [], []⟩ "s1" "b"
        ⟨none, some "hola", none⟩ 0).1.chatHistory "Desconocido").length = 1
    := by decide

/-- Claim C2, amended: for an existing group G with member list M (nicknames
pairwise distinct), a group message from a sender whose NON-EMPTY nickname is
in M is appended to the store and delivered to exactly the live connections
of the nicknames in M, while a sender whose nickname is not in M (or who has
no nickname) is rejected with the permission notice (`NotAGroupMember`) to
the sender only, with nothing stored.  The restriction to a non-empty sender
nickname is forced by `c2_cex`: the handler's `!senderNick` truthiness guard
also rejects a sender whose nickname is the empty string even when that
empty string is a member of M. -/
theorem c2_group_message_delivery (s : ServerState) (senderSid gname : String)
    (M : List String) (m : InMsg) (now : Nat)
    (hk : keysNodup s.users) (hv : valsNodup s.users)
    (hne : gname ≠ "") (hg : objGet s.groups gname = some M) :
    c2Post s senderSid gname M m now := by
  refine ⟨?_, ?_, ?_⟩
  · intro nick hnick hnickne hmem
    have heq := chatGroup_accepted s senderSid gname nick M m now hne hg
      hnick hnickne hmem
    rw [heq]
    dsimp only
    refine ⟨rfl, ?_⟩
    intro sid
    constructor
    · rintro ⟨mm, hmm⟩
      rw [List.mem_filterMap] at hmm
      obtain ⟨mn, hmnM, hf⟩ := hmm
      cases hn : nicknameToSocketId s.users mn with
      | none => rw [hn] at hf; cases hf
      | some tsid =>
        rw [hn] at hf
        have h1 : tsid = sid := congrArg Prod.fst (Option.some.inj hf)
        refine ⟨mn, hmnM, ?_⟩
        rw [← h1]
        exact mem_objGet hk (nicknameToSocketId_mem hn)
    · rintro ⟨mem, hmemM, hsid⟩
      refine ⟨grpMessage senderSid nick gname m now, ?_⟩
      rw [List.mem_filterMap]
      refine ⟨mem, hmemM, ?_⟩
      rw [mem_nicknameToSocketId hv (objGet_mem hsid)]
      rfl
  · intro nick hnick hmem
    exact chatGroup_not_member s senderSid gname nick M m now hne hg hnick hmem
  · intro hnick
    exact chatGroup_no_nick s senderSid gname M m now hne hg hnick

/-- Witness for `c2_group_message_delivery` at a concrete state with a group
G whose members are "a" and "b", both connected. -/
theorem c2_group_message_delivery_witness :
    c2Post ⟨["s1", "s2"], [("s1", "a"), ("s2", "b")], [("G", ["a", "b"])], []⟩
      "s1" "G" ["a", "b"] ⟨none, some "x", none⟩ 2 :=
  c2_group_message_delivery
    ⟨["s1", "s2"], [("s1", "a"), ("s2", "b")], [("G", ["a", "b"])], []⟩
    "s1" "G" ["a", "b"] ⟨none, some "x", none⟩ 2
    (by decide) (by decide) (by decide) (by decide)

/-- Claim C2 as frozen is false for the empty-string nickname: the state has
group G with member list [""] and the sender s1's asserted nickname "" is in
that member list, yet the handler rejects the send with the permission notice
and stores nothing, because `!senderNick` treats "" as no nickname. -/
theorem c2_cex :
    objGet (⟨["s1"], [("s1", "")], [("G", [""])], []⟩ : ServerState).users "s1"
      = some "" ∧
    "" ∈ ((objGet (⟨["s1"], [("s1", "")], [("G", [""])], []⟩
      : ServerState).groups "G").getD []) ∧
    chatGroup ⟨["s1"], [("s1", "")], [("G", [""])], []⟩ "s1" "G"
        ⟨none, some "x", none⟩ 0
      = (⟨["s1"], [("s1", "")], [("G", [""])], []⟩,
         [("s1", OutEvent.systemMessage
           "No tienes permiso para enviar mensajes a \"G\".")]) := by decide

/-- Claim C3, amended: group creation fails with `InvalidRequest` exactly
when the group name is empty or the proposed member list is empty BEFORE
filtering; a non-empty proposed member list whose members are all filtered
out, for a fresh non-empty name and a creator with no truthy nickname, fails
with `NoValidMembers` instead, and no group is stored in either failure.
The change from the frozen claim (which said filtering happens before the
`InvalidRequest` check and that the all-filtered-out case reports
`InvalidRequest`) is forced by `c3_cex`. -/
theorem c3_create_invalid_exactly (s : ServerState) (sid gname : String)
    (members : List String) :
    (createGroupResult s.users s.groups sid gname members
        = CreateResult.invalidRequest ↔ (gname = "" ∨ members = [])) ∧
    (gname ≠ "" → objGet s.groups gname = none → members ≠ [] →
      members.filter (fun n => (s.users.map Prod.snd).contains n) = [] →
      jsTruthy (objGet s.users sid) = false →
      createGroupResult s.users s.groups sid gname members
        = CreateResult.noValidMembers) ∧
    (createGroupResult s.users s.groups sid gname members
        = CreateResult.invalidRequest →
      (createGroup s sid gname members).1 = s) ∧
    (createGroupResult s.users s.groups sid gname members
        = CreateResult.noValidMembers →
      (createGroup s sid gname members).1 = s) := by
  refine ⟨createGroupResult_invalid_iff s.users s.groups sid gname members,
    fun hne hdup hmem hfil hcr =>
      createGroupResult_noValid s.users s.groups sid gname members hne hmem
        hdup hfil hcr, ?_, ?_⟩
  · intro h
    unfold createGroup
    rw [h]
  · intro h
    unfold createGroup
    rw [h]

/-- Witness for `c3_create_invalid_exactly`: one connected socket with no
nickname proposes a single disconnected member. -/
theorem c3_create_invalid_exactly_witness :
    createGroupResult [] [] "s1" "G" ["x"] = CreateResult.noValidMembers ∧
    (createGroup ⟨["s1"], [], [], []⟩ "s1" "G" ["x"]).1
      = ⟨["s1"], [], [], []⟩ := by
  have h := c3_create_invalid_exactly ⟨["s1"], [], [], []⟩ "s1" "G" ["x"]
  have h1 := h.2.1 (by decide) (by decide) (by decide) (by decide) (by decide)
  exact ⟨h1, h.2.2.2 h1⟩

/-- Claim C3 as frozen is false: with nobody connected, creating group "G"
with the non-empty proposed list ["x"] (all of it filtered out) reports
`NoValidMembers` — not `InvalidRequest` — though indeed no group is
stored. -/
theorem c3_cex :
    createGroupResult [] [] "s1" "G" ["x"] = CreateResult.noValidMembers ∧
    CreateResult.noValidMembers ≠ CreateResult.invalidRequest ∧
    (createGroup ⟨["s1"], [], [], []⟩ "s1" "G" ["x"]).2
      = [("s1", OutEvent.systemMessage
          "Ninguno de los miembros está conectado.")] ∧
    (createGroup ⟨["s1"], [], [], []⟩ "s1" "G" ["x"]).1.groups = [] := by
  decide

/-- Claim C4: in every state reachable from a fresh start, every stored
message has its kind in the closed set and a non-null target exactly for
private and group kinds, and this invariant is preserved by every single
event-handling step from any state satisfying it. -/
theorem c4_history_store_invariant :
    (∀ evs : List InEvent, historyWF (run evs)) ∧
    (∀ (s : ServerState) (e : InEvent), historyWF s → historyWF (step s e).1)
    := by
  constructor
  · intro evs
    apply runFrom_historyWF
    intro msg hmsg
    rw [show initState.chatHistory = [] from rfl] at hmsg
    cases hmsg
  · exact step_historyWF

/-- Witness for `c4_history_store_invariant`: one private-message step from
a concrete well-formed state. -/
theorem c4_history_store_invariant_witness :
    historyWF (step ⟨["s1"], [("s1", "a")], [], []⟩
      (InEvent.privMsg "s1" "a" ⟨none, some "x", none⟩ 3)).1 :=
  c4_history_store_invariant.2 ⟨["s1"], [("s1", "a")], [], []⟩
    (InEvent.privMsg "s1" "a" ⟨none, some "x", none⟩ 3)
    (fun msg hmsg => absurd hmsg (List.not_mem_nil msg))

/-- Claim C5, amended: from any state with non-empty history and non-empty
group registry, the administrative reset empties the History Store and the
Group Registry, leaves the users map and socket set unchanged, broadcasts
the (unchanged) presence list to every connected socket, and sends an empty
group list and an empty filtered history to every socket WITH an entry in
the Session Directory.  The frozen claim promised the empty group list and
history to every connected socket; `c5_cex` shows a connected socket with no
asserted nickname receives neither. -/
theorem c5_reset_frame (s : ServerState) (h1 : s.chatHistory ≠ [])
    (h2 : s.groups ≠ []) : c5Post s := by
  unfold c5Post resetHandler emitAll
  dsimp only
  refine ⟨rfl, rfl, rfl, rfl, ?_, ?_⟩
  · intro sid hsid
    apply List.mem_append_left
    exact List.mem_map.mpr ⟨sid, hsid, rfl⟩
  · intro p hp
    constructor
    · apply List.mem_append_right
      rw [List.mem_flatMap]
      exact ⟨p, hp, List.mem_cons_self _ _⟩
    · apply List.mem_append_right
      rw [List.mem_flatMap]
      exact ⟨p, hp, List.mem_cons_of_mem _ (List.mem_cons_self _ _)⟩

/-- Witness for `c5_reset_frame` at a state with one stored message and one
group. -/
theorem c5_reset_frame_witness :
    c5Post ⟨["s1"], [("s1", "a")], [("G", ["a"])],
      [⟨"s1", "a", "hi", none, 0, MsgType.public, none⟩]⟩ :=
  c5_reset_frame
    ⟨["s1"], [("s1", "a")], [("G", ["a"])],
      [⟨"s1", "a", "hi", none, 0, MsgType.public, none⟩]⟩
    (by decide) (by decide)

/-- Claim C5 as frozen is false: in a state with non-empty history and
non-empty registry where socket s2 is connected but has no Session Directory
entry, the reset emits no `group list` (and no `chat history`) to s2 at all
— only sockets listed in the users map get those emissions. -/
theorem c5_cex :
    (⟨["s1", "s2"], [("s1", "a")], [("G", ["a"])],
        [⟨"s1", "a", "hi", none, 0, MsgType.public, none⟩]⟩
      : ServerState).chatHistory ≠ [] ∧
    (⟨["s1", "s2"], [("s1", "a")], [("G", ["a"])],
        [⟨"s1", "a", "hi", none, 0, MsgType.public, none⟩]⟩
      : ServerState).groups ≠ [] ∧
    "s2" ∈ (⟨["s1", "s2"], [("s1", "a")], [("G", ["a"])],
        [⟨"s1", "a", "hi", none, 0, MsgType.public, none⟩]⟩
      : ServerState).sockets ∧
    ((resetHandler ⟨["s1", "s2"], [("s1", "a")], [("G", ["a"])],
        [⟨"s1", "a", "hi", none, 0, MsgType.public, none⟩]⟩).2.filter
      (fun p => p.1 == "s2" && isGroupListEvt p.2)) = [] := by decide

/-- Claim C6: group creation is deterministic and follows the
filter-then-force-add rule: creating "G" with proposed members ["x", "y"]
from the connection of creator "z", when exactly "x" and "z" are connected,
stores exactly the members ["x", "z"] — "y" silently dropped, "z"
force-included. -/
theorem c6_create_filter_then_force_add :
    (createGroup ⟨["s1", "s2"], [("s1", "x"), ("s2", "z")], [], []⟩
      "s2" "G" ["x", "y"]).1.groups = [("G", ["x", "z"])] := by decide

/-- Claim C7: a private typing event whose target nickname resolves to no
live connection is silently dropped — no emission at all and no state
change — whereas a private chat send to the same unresolved target emits the
not-connected `system message` to the sender (and also leaves the state
unchanged). -/
theorem c7_typing_unresolved_silent (s : ServerState) (senderSid t : String)
    (m : InMsg) (now : Nat)
    (h : nicknameToSocketId s.users t = none) :
    typingHandler s senderSid "private" (some t) = (s, []) ∧
    chatPrivate s senderSid t m now =
      (s, [(senderSid, OutEvent.systemMessage
        ("Usuario \"" ++ t ++ "\" no está conectado."))]) := by
  refine ⟨?_, chatPrivate_none s senderSid t m now h⟩
  unfold typingHandler
  by_cases ht : t = ""
  · subst ht
    simp [jsTruthy]
  · simp [jsTruthy, ht, h]

/-- Witness for `c7_typing_unresolved_silent`: nickname "ghost" is not
connected. -/
theorem c7_typing_unresolved_silent_witness :
    typingHandler ⟨["s1"], [("s1", "a")], [], []⟩ "s1" "private" (some "ghost")
      = (⟨["s1"], [("s1", "a")], [], []⟩, []) ∧
    chatPrivate ⟨["s1"], [("s1", "a")], [], []⟩ "s1" "ghost"
        ⟨none, some "hi", none⟩ 7
      = (⟨["s1"], [("s1", "a")], [], []⟩,
         [("s1", OutEvent.systemMessage
           ("Usuario \"" ++ "ghost" ++ "\" no está conectado."))]) :=
  c7_typing_unresolved_silent ⟨["s1"], [("s1", "a")], [], []⟩ "s1" "ghost"
    ⟨none, some "hi", none⟩ 7 (by decide)

/-- Claim C8: self-addressed private delivery is doubled — if the sender's
connection is the first in iteration order holding nickname N and it sends a
private message with target N, its own socket receives the `chat message`
emission exactly twice (once as sender, once as resolved target). -/
theorem c8_self_private_double (s : ServerState) (sid N : String) (m : InMsg)
    (now : Nat) (h1 : objGet s.users sid = some N)
    (h2 : nicknameToSocketId s.users N = some sid) :
    (chatPrivate s sid N m now).2 =
      [(sid, OutEvent.chatMessage (privMessage s sid N m now)),
       (sid, OutEvent.chatMessage (privMessage s sid N m now))] := by
  rw [chatPrivate_some s sid N sid m now h2]

/-- Witness for `c8_self_private_double`: user "a" messages "a". -/
theorem c8_self_private_double_witness :
    (chatPrivate ⟨["s1"], [("s1", "a")], [], []⟩ "s1" "a"
        ⟨none, some "yo", none⟩ 0).2 =
      [("s1", OutEvent.chatMessage (privMessage ⟨["s1"], [("s1", "a")], [], []⟩
        "s1" "a" ⟨none, some "yo", none⟩ 0)),
       ("s1", OutEvent.chatMessage (privMessage ⟨["s1"], [("s1", "a")], [], []⟩
        "s1" "a" ⟨none, some "yo", none⟩ 0))] :=
  c8_self_private_double ⟨["s1"], [("s1", "a")], [], []⟩ "s1" "a"
    ⟨none, some "yo", none⟩ 0 (by decide) (by decide)

/-- Claim C9: a connection with no Session Directory entry successfully
creates a group whenever the (fresh, non-empty) name is valid and at least
one proposed member is a currently connected nickname; the stored member
list is exactly the filtered proposed members, and no stored member's
nickname resolves to the creating connection — the creator is not a member
of the group it created. -/
theorem c9_creator_without_nickname (s : ServerState) (sid gname : String)
    (members : List String)
    (hnone : objGet s.users sid = none)
    (hne : gname ≠ "") (hnew : objGet s.groups gname = none)
    (hfil : members.filter (fun n => (s.users.map Prod.snd).contains n) ≠ []) :
    createGroupResult s.users s.groups sid gname members =
      CreateResult.success
        (members.filter (fun n => (s.users.map Prod.snd).contains n)) ∧
    (createGroup s sid gname members).1.groups =
      s.groups ++ [(gname,
        members.filter (fun n => (s.users.map Prod.snd).contains n))] ∧
    (∀ nick ∈ members.filter (fun n => (s.users.map Prod.snd).contains n),
      nicknameToSocketId s.users nick ≠ some sid) := by
  have hres := createGroupResult_success_no_creator s.users s.groups sid
    gname members hne hnew hnone hfil
  refine ⟨hres, ?_, ?_⟩
  · rw [createGroup_success_eq s sid gname members _ hres]
  · intro nick _ hcon
    exact objGet_eq_none_not_mem hnone (nicknameToSocketId_mem hcon)

/-- Witness for `c9_creator_without_nickname`: socket s1 (no nickname)
creates "G" proposing ["x", "y"] while only "x" is connected (on s2); the
group is stored with member list ["x"]. -/
theorem c9_creator_without_nickname_witness :
    (createGroup ⟨["s1", "s2"], [("s2", "x")], [], []⟩ "s1" "G"
      ["x", "y"]).1.groups = [("G", ["x"])] := by
  have h := c9_creator_without_nickname ⟨["s1", "s2"], [("s2", "x")], [], []⟩
    "s1" "G" ["x", "y"] (by decide) (by decide) (by decide) (by decide)
  rw [h.2.1]
  decide

/-- Claim C10: group typing indicators perform no sender-membership check —
no reachable state has a group with an empty name, and for any existing
group G with member list M (nicknames pairwise distinct), ANY sender,
member or not, with or without a nickname, causes the typing event to be
delivered to exactly the live member connections of M other than the
sender's own socket. -/
theorem c10_group_typing_no_membership_check :
    (∀ evs : List InEvent, "" ∉ (run evs).groups.map Prod.fst) ∧
    (∀ (s : ServerState) (senderSid gname : String) (M : List String),
      keysNodup s.users → valsNodup s.users → gname ≠ "" →
      objGet s.groups gname = some M → c10Post s senderSid gname M) := by
  constructor
  · intro evs
    apply runFrom_groups_keys
    intro h
    rw [show initState.groups.map Prod.fst = [] from rfl] at h
    cases h
  · intro s senderSid gname M hk hv hne hg
    unfold c10Post
    rw [typingHandler_group_eq s senderSid gname M hne hg]
    intro sid
    constructor
    · rintro ⟨n, ty, tg, hmm⟩
      rw [List.mem_filterMap] at hmm
      obtain ⟨mn, hmnM, hf⟩ := hmm
      cases hn : nicknameToSocketId s.users mn with
      | none => rw [hn] at hf; cases hf
      | some tsid =>
        rw [hn] at hf
        dsimp only at hf
        by_cases hts : tsid = senderSid
        · rw [if_neg (not_not_intro hts)] at hf
          cases hf
        · rw [if_pos hts] at hf
          have h1 : tsid = sid := congrArg Prod.fst (Option.some.inj hf)
          refine ⟨?_, mn, hmnM, ?_⟩
          · rw [← h1]; exact hts
          · rw [← h1]; exact mem_objGet hk (nicknameToSocketId_mem hn)
    · rintro ⟨hsid, mem, hmemM, hob⟩
      refine ⟨objGet s.users senderSid, "group", some gname, ?_⟩
      rw [List.mem_filterMap]
      refine ⟨mem, hmemM, ?_⟩
      rw [mem_nicknameToSocketId hv (objGet_mem hob)]
      dsimp only
      rw [if_pos hsid]

/-- Witness for `c10_group_typing_no_membership_check`: sender "a" on s1 is
NOT a member of G (members "b" on s2), yet the typing event goes to s2. -/
theorem c10_group_typing_no_membership_check_witness :
    c10Post ⟨["s1", "s2"], [("s1", "a"), ("s2", "b")], [("G", ["b"])], []⟩
      "s1" "G" ["b"] :=
  c10_group_typing_no_membership_check.2
    ⟨["s1", "s2"], [("s1", "a"), ("s2", "b")], [("G", ["b"])], []⟩
    "s1" "G" ["b"] (by decide) (by decide) (by decide) (by decide)

end Chatto
